import Mathlib

set_option linter.unusedVariables false

/-!
Shallow embedding of the subscription-ledger and entitlement-gate logic of
the webgen backend (controllers/subscription.Controller.js,
controllers/Website.controller.js, controllers/webhookController.js,
utils/subscriptionUtils.js, models/Subscription.model.js).

Timestamps are natural numbers (milliseconds since the epoch); provider
payload timestamps are seconds, and the code multiplies them by 1000. The
Mongo document stores are lists of records; `findOne` is `List.find?`,
`findOneAndUpdate` updates the first match.
-/

namespace WebGen

/-- Subscription status enumeration of models/Subscription.model.js. -/
inductive SubStatus where
  | active
  | canceled
  | incomplete
  | pastDue
  | unpaid
  | trialing
deriving DecidableEq, Repr

/-- One Subscription document (models/Subscription.model.js). `endedAt` is
the extra field the immediate-cancel branch assigns. -/
structure Subscription where
  subscriptionId : String
  userId : String
  websiteId : String
  email : String
  productId : String
  status : SubStatus
  startDate : Option Nat
  currentPeriodEnd : Option Nat
  canceledAt : Option Nat
  cancelAtPeriodEnd : Bool
  trialEnd : Option Nat
  endedAt : Option Nat
  metadata : List (String × String)
  updatedAt : Nat
deriving DecidableEq, Repr

/-- One Website document, the fields the embedded controllers touch
(models/Website.model.js). -/
structure Website where
  id : String
  userId : String
  templateId : Option String
  slug : String
  customDomain : Option String
  isCustomDomainVerified : Bool
  domainVerifiedAt : Option Nat
  isPublished : Bool
  publishedAt : Option Nat
deriving DecidableEq, Repr

/-- The 24-hex-character ObjectId validation regex
`/^[0-9a-fA-F]\x7b24\x7d$/` used by every controller. -/
def isValidObjectId (s : String) : Bool :=
  s.length == 24 && s.toList.all (fun c =>
    (('0' ≤ c) && (c ≤ '9')) || (('a' ≤ c) && (c ≤ 'f')) || (('A' ≤ c) && (c ≤ 'F')))

/-- Modelled from the spec: the entitlement predicate of §3
(`status == 'active' AND currentPeriodEnd > now`), written from the spec's
words so the code's gates can be compared against it. -/
def specEntitled (s : Subscription) (now : Nat) : Bool :=
  s.status == .active &&
    (match s.currentPeriodEnd with
     | some e => decide (now < e)
     | none => false)

/-- Modelled from the spec: a record-store gate that grants exactly when a
record for the given user and website satisfies `specEntitled`. -/
def specEntitlementGate (store : List Subscription) (userId websiteId : String)
    (now : Nat) : Bool :=
  (store.find? (fun s =>
    s.userId == userId && s.websiteId == websiteId && specEntitled s now)).isSome

/-- The query `Subscription.findOne({userId, websiteId, status: 'active'})`
shared by publishWebsite, setCustomDomain, verifyCustomDomain and
getWebsiteEdit (Website.controller.js). -/
def findActiveSub (store : List Subscription) (userId websiteId : String) :
    Option Subscription :=
  store.find? (fun s =>
    s.userId == userId && s.websiteId == websiteId && s.status == .active)

/-- The single-website entitlement check of checkSubscription
(subscription.Controller.js lines 146-151): `findOne({userId, websiteId,
status: 'active', currentPeriodEnd: \x7b$gte: now\x7d})`, entitled iff a
document matches. A record with no `currentPeriodEnd` cannot match `$gte`. -/
def checkSubscriptionGate (store : List Subscription) (userId websiteId : String)
    (now : Nat) : Bool :=
  (store.find? (fun s =>
    s.userId == userId && s.websiteId == websiteId && s.status == .active &&
    (match s.currentPeriodEnd with
     | some e => decide (now ≤ e)
     | none => false))).isSome

/-- The publish gate of publishWebsite (Website.controller.js lines
129-155): find an active-status record; reject when none; then reject when
`subscription.currentPeriodEnd && new Date(subscription.currentPeriodEnd) < now`. -/
def publishGate (store : List Subscription) (userId websiteId : String)
    (now : Nat) : Bool :=
  match findActiveSub store userId websiteId with
  | none => false
  | some sub =>
    match sub.currentPeriodEnd with
    | some e => decide (now ≤ e)
    | none => true

/-- The custom-domain-verification gate of verifyCustomDomain
(Website.controller.js lines 362-375): find an active-status record; reject
when none; no period check at all. -/
def domainVerificationGate (store : List Subscription) (userId websiteId : String) :
    Bool :=
  (findActiveSub store userId websiteId).isSome

/-- JS `String.prototype.toLowerCase` on ASCII domains: lower-case each
character. -/
def jsToLower (s : String) : String :=
  String.mk (s.data.map Char.toLower)

/-- verifyDNSRecord (Website.controller.js lines 699-715): the DNS check is
stubbed and returns `true` unconditionally. -/
def verifyDNSRecord (domain : String) (targetSlug : String) : Bool :=
  true

/-- Outcome of a controller call: HTTP status plus the website store after
the call (for website-mutating controllers). -/
structure WebsiteResult where
  httpStatus : Nat
  websites : List Website
deriving DecidableEq, Repr

/-- Replace the first record matching `p` by `f` applied to it
(`findOneAndUpdate` on a list store). -/
def updateFirst {α : Type} (p : α → Bool) (f : α → α) : List α → List α
  | [] => []
  | x :: xs => if p x then f x :: xs else x :: updateFirst p f xs

/-- verifyCustomDomain (Website.controller.js lines 334-415): validate the
website id, find the website, compare the stored customDomain with the
lowercased supplied domain, require an active-status subscription, then run
the (stubbed) DNS check and on success set `isCustomDomainVerified` and
`domainVerifiedAt`. -/
def verifyCustomDomain (websites : List Website) (subs : List Subscription)
    (domain : String) (siteid : String) (now : Nat) : WebsiteResult :=
  if !(isValidObjectId siteid) then
    ⟨400, websites⟩
  else
    match websites.find? (fun w => w.id == siteid) with
    | none => ⟨404, websites⟩
    | some website =>
      if website.customDomain != some (jsToLower domain) then
        ⟨400, websites⟩
      else if !(domainVerificationGate subs website.userId siteid) then
        ⟨403, websites⟩
      else if verifyDNSRecord domain website.slug then
        ⟨200, updateFirst (fun w => w.id == siteid)
          (fun w => { w with isCustomDomainVerified := true,
                             domainVerifiedAt := some now }) websites⟩
      else
        ⟨400, websites⟩

/-- The subscription object returned by the Stripe cancel / update call:
the fields cancelSubscription reads. `status` is optional because the code
defends with `updatedStripeSubscription.status || 'active'`. -/
structure StripeSubResponse where
  status : Option SubStatus
  cancelAt : Option Nat
deriving DecidableEq, Repr

/-- A Stripe SDK error as cancelSubscription's catch block inspects it:
`error.type` and `error.code`. -/
structure StripeError where
  type : String
  code : String
deriving DecidableEq, Repr

/-- Outcome of cancelSubscription: HTTP status plus the subscription store
after the call. -/
structure CancelResult where
  httpStatus : Nat
  subs : List Subscription
deriving DecidableEq, Repr

/-- cancelSubscription (subscription.Controller.js lines 189-319).
`stripeResult` is the outcome of the single outbound Stripe call the taken
branch performs (cancel-now when `cancelImmediately`, otherwise the
cancel-at-period-end update); a thrown Stripe error lands in the catch
block, which tests `error.type == 'StripeInvalidRequestError'` before
`error.code == 'resource_missing'` and falls through to 500. On provider
success the immediate branch sets status/canceledAt/cancelAtPeriodEnd/
endedAt/currentPeriodEnd, the period-end branch sets cancelAtPeriodEnd,
canceledAt, and `status = updatedStripeSubscription.status || 'active'`. -/
def cancelSubscription (store : List Subscription) (subscriptionId : String)
    (userId : Option String) (cancelImmediately : Bool)
    (stripeResult : Except StripeError StripeSubResponse) (now : Nat) :
    CancelResult :=
  if subscriptionId == "" then ⟨400, store⟩
  else
    match store.find? (fun s => s.subscriptionId == subscriptionId) with
    | none => ⟨404, store⟩
    | some sub =>
      if (match userId with
          | some u => sub.userId != u
          | none => false) then ⟨403, store⟩
      else if sub.status == .canceled then ⟨400, store⟩
      else
        match stripeResult with
        | .error e =>
          if e.type == "StripeInvalidRequestError" then ⟨400, store⟩
          else if e.code == "resource_missing" then ⟨404, store⟩
          else ⟨500, store⟩
        | .ok stripeSub =>
          let f : Subscription → Subscription :=
            if cancelImmediately then
              fun s => { s with status := .canceled,
                                canceledAt := some now,
                                cancelAtPeriodEnd := false,
                                endedAt := some now,
                                currentPeriodEnd := some now }
            else
              fun s => { s with cancelAtPeriodEnd := true,
                                canceledAt := some now,
                                status := stripeSub.status.getD .active }
          ⟨200, updateFirst (fun s => s.subscriptionId == subscriptionId) f store⟩

/-- One observable mutation step of the website-deletion cascade, in the
order deleteWebsite issues them. -/
inductive DeleteStep where
  | websiteDeleted (websiteId : String)
  | templateUsageDecremented (templateId : String)
  | subscriptionsDeleted (websiteId : String)
deriving DecidableEq, Repr

/-- Combined document store for the deletion cascade. -/
structure Store where
  websites : List Website
  subs : List Subscription
deriving DecidableEq, Repr

/-- Outcome of deleteWebsite: HTTP status, final store, and the ordered
trace of mutations performed. -/
structure DeleteResult where
  httpStatus : Nat
  store : Store
  trace : List DeleteStep
deriving DecidableEq, Repr

/-- deleteWebsite (Website.controller.js lines 618-661):
`Website.findByIdAndDelete` first (404 when absent), then decrement the
template usage count when the deleted website carried a templateId, then
`Subscription.deleteMany(\x7bwebsiteId\x7d)`. The trace records the
mutations in program order. -/
def deleteWebsite (store : Store) (websiteId : String) : DeleteResult :=
  if !(isValidObjectId websiteId) then ⟨400, store, []⟩
  else
    match store.websites.find? (fun w => w.id == websiteId) with
    | none => ⟨404, store, []⟩
    | some deleted =>
      let afterWebsite : Store :=
        { store with websites := store.websites.filter (fun w => w.id != websiteId) }
      let steps1 : List DeleteStep := [.websiteDeleted websiteId]
      let steps2 : List DeleteStep :=
        match deleted.templateId with
        | some tid => steps1 ++ [.templateUsageDecremented tid]
        | none => steps1
      let final : Store :=
        { afterWebsite with
            subs := afterWebsite.subs.filter (fun s => s.websiteId != websiteId) }
      ⟨200, final, steps2 ++ [.subscriptionsDeleted websiteId]⟩

/-- JS truthiness of an optional string (`undefined`, `null` and `""` are
falsy). -/
def jsTruthy (o : Option String) : Bool :=
  match o with
  | none => false
  | some s => s != ""

/-- The provider subscription object as the webhook handlers read it
(fields of the Stripe subscription payload / retrieve result). `itemProductId`
stands for `subscription.items.data[0]?.price?.product`. -/
structure ProviderSubscription where
  id : String
  status : SubStatus
  current_period_start : Nat
  current_period_end : Nat
  trial_end : Option Nat
  cancel_at_period_end : Bool
  canceled_at : Option Nat
  metadata : List (String × String)
  itemProductId : Option String
deriving DecidableEq, Repr

/-- The past_due / unpaid → incomplete status mapping performed by
handlePaymentSucceeded and handleSubscriptionUpdated (webhookController.js). -/
def normalizeStatus (st : SubStatus) : SubStatus :=
  match st with
  | .pastDue => .incomplete
  | .unpaid => .incomplete
  | s => s

/-- A fresh Subscription document as a Mongo upsert inserts it: the schema
defaults of models/Subscription.model.js for every field the update does
not set. -/
def blankSub (sid : String) (now : Nat) : Subscription :=
  { subscriptionId := sid, userId := "", websiteId := "", email := "",
    productId := "", status := .incomplete, startDate := none,
    currentPeriodEnd := none, canceledAt := none, cancelAtPeriodEnd := false,
    trialEnd := none, endedAt := none, metadata := [], updatedAt := now }

/-- `findOneAndUpdate({subscriptionId}, fields, {upsert: true})`: update the
first matching document, or insert `f` applied to a fresh document when
none matches. -/
def upsertSub (sid : String) (f : Subscription → Subscription) (now : Nat)
    (store : List Subscription) : List Subscription :=
  if (store.find? (fun s => s.subscriptionId == sid)).isSome then
    updateFirst (fun s => s.subscriptionId == sid) f store
  else
    store ++ [f (blankSub sid now)]

/-- handleCheckoutCompleted (webhookController.js lines 84-136). Inputs are
the checkout-session fields the handler reads and the results of the two
provider retrieve calls. Drops the event when the session carries no
subscription reference or the subscription metadata misses websiteId /
userId; otherwise upserts with `status: subscription.status` — the raw
provider status, with no normalization. -/
def handleCheckoutCompleted (sessionSubscription : Option String)
    (sessionCustomerEmail : Option String) (providerSub : ProviderSubscription)
    (customerEmail : Option String) (now : Nat) (store : List Subscription) :
    List Subscription :=
  if !(jsTruthy sessionSubscription) then store
  else
    let subscriptionId := sessionSubscription.getD ""
    let websiteId := providerSub.metadata.lookup "websiteId"
    let userId := providerSub.metadata.lookup "userId"
    if !(jsTruthy websiteId) || !(jsTruthy userId) then store
    else
      let email := (customerEmail.orElse (fun _ => sessionCustomerEmail)).getD ""
      upsertSub subscriptionId (fun s =>
        { s with email := email,
                 userId := userId.getD "",
                 productId := providerSub.itemProductId.getD "unknown",
                 websiteId := websiteId.getD "",
                 status := providerSub.status,
                 startDate := some (providerSub.current_period_start * 1000),
                 currentPeriodEnd := some (providerSub.current_period_end * 1000),
                 trialEnd := providerSub.trial_end.map (· * 1000),
                 cancelAtPeriodEnd := providerSub.cancel_at_period_end,
                 metadata := providerSub.metadata,
                 updatedAt := now }) now store

/-- handlePaymentSucceeded (webhookController.js lines 141-204). The period
comes from the invoice's first line item when present, falling back to the
subscription object's period; the status is the provider status with
past_due / unpaid normalized to incomplete; then upsert. -/
def handlePaymentSucceeded (invoiceSubscription : Option String)
    (invoiceLineStart : Option Nat) (invoiceLineEnd : Option Nat)
    (providerSub : ProviderSubscription) (customerEmail : Option String)
    (now : Nat) (store : List Subscription) : List Subscription :=
  if !(jsTruthy invoiceSubscription) then store
  else
    let subscriptionId := invoiceSubscription.getD ""
    let currentPeriodEnd :=
      match invoiceLineEnd with
      | some e => e * 1000
      | none => providerSub.current_period_end * 1000
    let startDate :=
      match invoiceLineStart with
      | some s => s * 1000
      | none => providerSub.current_period_start * 1000
    upsertSub subscriptionId (fun s =>
      { s with email := customerEmail.getD "",
               userId := (providerSub.metadata.lookup "userId").getD "",
               productId := providerSub.itemProductId.getD "unknown",
               websiteId := (providerSub.metadata.lookup "websiteId").getD "",
               status := normalizeStatus providerSub.status,
               startDate := some startDate,
               currentPeriodEnd := some currentPeriodEnd,
               cancelAtPeriodEnd := providerSub.cancel_at_period_end,
               trialEnd := providerSub.trial_end.map (· * 1000),
               updatedAt := now }) now store

/-- handlePaymentFailed (webhookController.js lines 209-238): when the
invoice references a subscription, set only `status = incomplete` (and the
updatedAt bookkeeping) on the existing record; no upsert, no other field. -/
def handlePaymentFailed (invoiceSubscription : Option String) (now : Nat)
    (store : List Subscription) : List Subscription :=
  if !(jsTruthy invoiceSubscription) then store
  else
    updateFirst (fun s => s.subscriptionId == invoiceSubscription.getD "")
      (fun s => { s with status := .incomplete, updatedAt := now }) store

/-- handleSubscriptionUpdated (webhookController.js lines 243-278):
re-derive status (with past_due / unpaid normalization), period end,
cancelAtPeriodEnd, canceledAt and trialEnd from the payload and update the
existing record; no upsert. -/
def handleSubscriptionUpdated (providerSub : ProviderSubscription) (now : Nat)
    (store : List Subscription) : List Subscription :=
  updateFirst (fun s => s.subscriptionId == providerSub.id)
    (fun s =>
      { s with status := normalizeStatus providerSub.status,
               currentPeriodEnd := some (providerSub.current_period_end * 1000),
               cancelAtPeriodEnd := providerSub.cancel_at_period_end,
               canceledAt := providerSub.canceled_at.map (· * 1000),
               trialEnd := providerSub.trial_end.map (· * 1000),
               updatedAt := now }) store

/-- handleSubscriptionDeleted (webhookController.js lines 283-321): force
`status = canceled`, `cancelAtPeriodEnd = false`, `canceledAt` from the
payload's canceled_at (or the current time when absent) on the existing
record; no upsert, so an unknown id is a no-op. -/
def handleSubscriptionDeleted (payloadId : String) (payloadCanceledAt : Option Nat)
    (now : Nat) (store : List Subscription) : List Subscription :=
  let canceledAt :=
    match payloadCanceledAt with
    | some t => t * 1000
    | none => now
  updateFirst (fun s => s.subscriptionId == payloadId)
    (fun s =>
      { s with status := .canceled, canceledAt := some canceledAt,
               cancelAtPeriodEnd := false, updatedAt := now }) store

/-- One entry of the bulk status map: `\x7bhasActive, subscription\x7d`
(subscriptionUtils.js). -/
structure BulkEntry where
  hasActive : Bool
  subscription : Option Subscription
deriving DecidableEq, Repr

/-- Overwrite the value stored under key `k` (JS object property
assignment; keys here are distinct, see `getBulkSubscriptionStatus`). -/
def setKey (m : List (String × BulkEntry)) (k : String) (v : BulkEntry) :
    List (String × BulkEntry) :=
  updateFirst (fun p => p.1 == k) (fun p => (p.1, v)) m

/-- getBulkSubscriptionStatus (subscriptionUtils.js lines 119-150): query
all active-status records of the user whose websiteId is among the
requested ids, initialize every requested id to
`\x7bhasActive: false, subscription: null\x7d`, then overwrite the entry of
each found record with its validity (`currentPeriodEnd > now`). The JS
object is modeled as an association list, faithful for distinct requested
ids. -/
def getBulkSubscriptionStatus (store : List Subscription) (userId : String)
    (websiteIds : List String) (now : Nat) : List (String × BulkEntry) :=
  let subscriptions := store.filter (fun s =>
    s.userId == userId && websiteIds.contains s.websiteId && s.status == .active)
  let init := websiteIds.map (fun id => (id, BulkEntry.mk false none))
  subscriptions.foldl (fun m sub =>
    let isValid :=
      match sub.currentPeriodEnd with
      | some e => decide (now < e)
      | none => false
    setKey m sub.websiteId ⟨isValid, if isValid then some sub else none⟩) init

/-- A signature-verified Stripe event envelope as handleWebhook dispatches
on it. -/
structure StripeEvent where
  type : String
deriving DecidableEq, Repr

/-- The webhook endpoint's HTTP reply: status code, and the `received` /
`eventType` fields of the 200 body when present. -/
structure WebhookResponse where
  httpStatus : Nat
  received : Option Bool
  eventType : Option String
deriving DecidableEq, Repr

/-- The six event types the switch of handleWebhook dispatches to a
handler; any other type hits the default branch, which only logs. -/
def knownEventTypes : List String :=
  ["checkout.session.completed", "invoice.payment_succeeded",
   "invoice.payment_failed", "customer.subscription.updated",
   "customer.subscription.deleted", "customer.subscription.trial_will_end"]

/-- handleWebhook (webhookController.js lines 14-79). `constructEventResult`
is the outcome of `stripe.webhooks.constructEvent` (signature
verification); `handlerOutcome` abstracts the awaited handler call for each
known event type (`Except.error` when that handler throws). Signature
failure returns 400 before any dispatch; a completed dispatch (including
the default branch for unknown types) returns 200 with
`received: true, eventType`; a throwing handler returns 500. -/
def handleWebhook (constructEventResult : Except String StripeEvent)
    (handlerOutcome : String → Except String Unit) : WebhookResponse :=
  match constructEventResult with
  | .error _ => ⟨400, none, none⟩
  | .ok event =>
    let processed : Except String Unit :=
      if knownEventTypes.contains event.type then handlerOutcome event.type
      else .ok ()
    match processed with
    | .ok _ => ⟨200, some true, some event.type⟩
    | .error _ => ⟨500, none, none⟩

/-! ## Helper lemmas about the store primitives -/

theorem updateFirst_length {α : Type} (p : α → Bool) (f : α → α) :
    ∀ l : List α, (updateFirst p f l).length = l.length := by
  intro l
  induction l with
  | nil => rfl
  | cons x xs ih =>
    by_cases hx : p x = true
    · simp [updateFirst, hx]
    · simp [updateFirst, hx, ih]

theorem updateFirst_of_no_match {α : Type} (p : α → Bool) (f : α → α) :
    ∀ l : List α, (∀ x ∈ l, p x = false) → updateFirst p f l = l := by
  intro l
  induction l with
  | nil => intro _; rfl
  | cons x xs ih =>
    intro h
    have hx := h x (List.mem_cons_self x xs)
    simp [updateFirst, hx]
    exact ih fun y hy => h y (List.mem_cons_of_mem x hy)

theorem mem_updateFirst {α : Type} (p : α → Bool) (f : α → α) :
    ∀ (l : List α) (y : α), y ∈ updateFirst p f l → y ∈ l ∨ ∃ x ∈ l, y = f x := by
  intro l
  induction l with
  | nil => intro y hy; cases hy
  | cons x xs ih =>
    intro y hy
    by_cases hx : p x = true
    · simp only [updateFirst, hx, if_pos] at hy
      rcases List.mem_cons.mp hy with h | h
      · exact Or.inr ⟨x, List.mem_cons_self x xs, h⟩
      · exact Or.inl (List.mem_cons_of_mem x h)
    · simp only [updateFirst, hx, if_neg, Bool.false_eq_true] at hy
      rcases List.mem_cons.mp hy with h | h
      · exact Or.inl (h ▸ List.mem_cons_self x xs)
      · rcases ih y h with h' | ⟨z, hz, hzy⟩
        · exact Or.inl (List.mem_cons_of_mem x h')
        · exact Or.inr ⟨z, List.mem_cons_of_mem x hz, hzy⟩

theorem find?_updateFirst {α : Type} (p : α → Bool) (f : α → α)
    (hpf : ∀ x, p (f x) = p x) :
    ∀ l : List α, (updateFirst p f l).find? p = (l.find? p).map f := by
  intro l
  induction l with
  | nil => rfl
  | cons x xs ih =>
    by_cases hx : p x = true
    · have hfx : p (f x) = true := (hpf x).trans hx
      simp [updateFirst, hx, List.find?_cons_of_pos _ hx,
            List.find?_cons_of_pos _ hfx]
    · have h1 : updateFirst p f (x :: xs) = x :: updateFirst p f xs := by
        simp [updateFirst, hx]
      rw [h1, List.find?_cons_of_neg _ hx, List.find?_cons_of_neg _ hx, ih]

theorem all_find?_updateFirst {α : Type} (p : α → Bool) (f : α → α)
    (q : α → Bool) (hpf : ∀ x, p (f x) = p x) (hq : ∀ x, q (f x) = true)
    (l : List α) : ((updateFirst p f l).find? p).all q = true := by
  rw [find?_updateFirst p f hpf l]
  cases l.find? p with
  | none => rfl
  | some x => exact hq x

theorem updateFirst_idem {α : Type} (p : α → Bool) (f : α → α)
    (hpf : ∀ x, p (f x) = p x) (hff : ∀ x, p x = true → f (f x) = f x) :
    ∀ l : List α, updateFirst p f (updateFirst p f l) = updateFirst p f l := by
  intro l
  induction l with
  | nil => rfl
  | cons x xs ih =>
    by_cases hx : p x = true
    · have hfx : p (f x) = true := (hpf x).trans hx
      simp [updateFirst, hx, hfx, hff x hx]
    · simp [updateFirst, hx, ih]

theorem map_updateFirst {α β : Type} (p : α → Bool) (f : α → α) (g : α → β)
    (hgf : ∀ x, g (f x) = g x) :
    ∀ l : List α, (updateFirst p f l).map g = l.map g := by
  intro l
  induction l with
  | nil => rfl
  | cons x xs ih =>
    by_cases hx : p x = true
    · simp [updateFirst, hx, hgf x]
    · simp [updateFirst, hx, ih]

theorem mem_upsertSub (sid : String) (f : Subscription → Subscription) (now : Nat)
    (store : List Subscription) (y : Subscription) :
    y ∈ upsertSub sid f now store → y ∈ store ∨ ∃ x, y = f x := by
  intro hy
  unfold upsertSub at hy
  by_cases hfound : (store.find? (fun s => s.subscriptionId == sid)).isSome = true
  · simp only [hfound, if_pos] at hy
    rcases mem_updateFirst _ _ _ _ hy with h | ⟨x, _, hxy⟩
    · exact Or.inl h
    · exact Or.inr ⟨x, hxy⟩
  · simp only [hfound, if_neg, Bool.false_eq_true] at hy
    rcases List.mem_append.mp hy with h | h
    · exact Or.inl h
    · exact Or.inr ⟨blankSub sid now, by simpa using h⟩

theorem isSome_match_bool {α : Type} (b : Bool) (x : α) :
    (match b with | true => some x | false => none).isSome = b := by
  cases b <;> rfl

theorem find?_singleton {α : Type} (p : α → Bool) (x : α) :
    List.find? p [x] = if p x then some x else none := by
  cases hp : p x <;> simp [List.find?, hp]

theorem isSome_find?_singleton {α : Type} (p : α → Bool) (x : α) :
    (List.find? p [x]).isSome = p x := by
  cases hp : p x <;> simp [List.find?, hp]

/-- `normalizeStatus` never produces past_due or unpaid. -/
theorem normalizeStatus_not_past_due (st : SubStatus) :
    normalizeStatus st ≠ .pastDue ∧ normalizeStatus st ≠ .unpaid := by
  cases st <;> simp [normalizeStatus]

/-! ## Concrete fixtures used by counterexamples and witnesses -/

/-- A syntactically valid Mongo ObjectId. -/
def objectIdA : String := "0123456789abcdef01234567"

/-- An active subscription for user u1 and website w1, period ending at
time 1000. -/
def subActive : Subscription :=
  { subscriptionId := "sub_1", userId := "u1", websiteId := "w1",
    email := "a@b.c", productId := "prod_1", status := .active,
    startDate := some 0, currentPeriodEnd := some 1000, canceledAt := none,
    cancelAtPeriodEnd := false, trialEnd := none, endedAt := none,
    metadata := [], updatedAt := 0 }

/-- A trialing subscription (not canceled) for user u1 and website w1. -/
def subTrialing : Subscription :=
  { subscriptionId := "sub_2", userId := "u1", websiteId := "w1",
    email := "a@b.c", productId := "prod_1", status := .trialing,
    startDate := some 0, currentPeriodEnd := some 5000, canceledAt := none,
    cancelAtPeriodEnd := false, trialEnd := some 5000, endedAt := none,
    metadata := [], updatedAt := 0 }

/-- An active subscription attached to the website `objectIdA`. -/
def subSite : Subscription :=
  { subscriptionId := "sub_3", userId := "u1", websiteId := objectIdA,
    email := "a@b.c", productId := "prod_1", status := .active,
    startDate := some 0, currentPeriodEnd := some 1000, canceledAt := none,
    cancelAtPeriodEnd := false, trialEnd := none, endedAt := none,
    metadata := [], updatedAt := 0 }

/-- A website owned by u1 with an assigned, unverified custom domain. -/
def siteA : Website :=
  { id := objectIdA, userId := "u1", templateId := none, slug := "mysite",
    customDomain := some "example.com", isCustomDomainVerified := false,
    domainVerifiedAt := none, isPublished := false, publishedAt := none }

/-- A provider subscription payload reporting status past_due, carrying
complete metadata. -/
def providerSubPastDue : ProviderSubscription :=
  { id := "sub_pd", status := .pastDue, current_period_start := 1,
    current_period_end := 100, trial_end := none,
    cancel_at_period_end := false, canceled_at := none,
    metadata := [("websiteId", "w1"), ("userId", "u1")],
    itemProductId := some "prod_1" }

/-! ## C1: the entitlement predicate across its consumers -/

/-- C1 counterexample: the claim says every consumer evaluates exactly
`status == 'active' AND currentPeriodEnd > now`. At time 2000 the record
`subActive` (active, period end 1000) is not entitling under that
predicate, yet the custom-domain-verification gate grants (it never checks
the period); at time 1000 (the boundary) the predicate is false, yet the
single-website entitlement check grants, because its query uses `$gte`. -/
theorem entitlement_gates_disagree_with_spec :
    domainVerificationGate [subActive] "u1" "w1" = true ∧
    specEntitlementGate [subActive] "u1" "w1" 2000 = false ∧
    checkSubscriptionGate [subActive] "u1" "w1" 1000 = true ∧
    specEntitlementGate [subActive] "u1" "w1" 1000 = false := by
  decide

/-- C1 (amended): for a store holding the record of the queried user and
website, the three consumers evaluate three different predicates:
checkSubscription grants iff `status == 'active'` and
`currentPeriodEnd >= now`; the publish gate grants iff `status == 'active'`
and the period end, when present, is `>= now` (a record with no period end
passes); the custom-domain-verification gate grants iff
`status == 'active'`, with no period check. None of them is the spec's
strict `currentPeriodEnd > now`. -/
theorem entitlement_gates_characterization (sub : Subscription) (u w : String)
    (now : Nat) (hu : sub.userId = u) (hw : sub.websiteId = w) :
    checkSubscriptionGate [sub] u w now =
      (sub.status == .active &&
        (match sub.currentPeriodEnd with
         | some e => decide (now ≤ e)
         | none => false)) ∧
    publishGate [sub] u w now =
      (sub.status == .active &&
        (match sub.currentPeriodEnd with
         | some e => decide (now ≤ e)
         | none => true)) ∧
    domainVerificationGate [sub] u w = (sub.status == .active) := by
  subst hu; subst hw
  refine ⟨?_, ?_, ?_⟩
  · simp only [checkSubscriptionGate, isSome_find?_singleton]
    cases hend : sub.currentPeriodEnd <;> simp [hend]
  · simp only [publishGate, findActiveSub, find?_singleton]
    cases hst : (sub.status == SubStatus.active) <;>
      cases hend : sub.currentPeriodEnd <;>
        simp [hst, hend]
  · simp only [domainVerificationGate, findActiveSub, isSome_find?_singleton]
    simp

/-- C1 witness: the characterization applied to the concrete record
`subActive` at time 1000. -/
theorem entitlement_gates_characterization_witness :
    checkSubscriptionGate [subActive] "u1" "w1" 1000 =
      (subActive.status == .active &&
        (match subActive.currentPeriodEnd with
         | some e => decide (1000 ≤ e)
         | none => false)) ∧
    publishGate [subActive] "u1" "w1" 1000 =
      (subActive.status == .active &&
        (match subActive.currentPeriodEnd with
         | some e => decide (1000 ≤ e)
         | none => true)) ∧
    domainVerificationGate [subActive] "u1" "w1" = (subActive.status == .active) :=
  entitlement_gates_characterization subActive "u1" "w1" 1000 (by rfl) (by rfl)

/-! ## C10: domain verification always succeeds past the gate -/

/-- C10: the DNS capability is stubbed to `true`, so whenever the website
exists, the supplied domain matches the stored customDomain
(case-insensitively), and an active-status subscription exists for the
website, verification succeeds: HTTP 200, `isCustomDomainVerified` set,
`domainVerifiedAt` stamped; the verification-failed branch is unreachable. -/
theorem verifyCustomDomain_always_verifies
    (websites : List Website) (subs : List Subscription)
    (domain siteid : String) (now : Nat) (w : Website)
    (hid : isValidObjectId siteid = true)
    (hfind : websites.find? (fun x => x.id == siteid) = some w)
    (hdom : w.customDomain = some (jsToLower domain))
    (hgate : domainVerificationGate subs w.userId siteid = true) :
    (verifyCustomDomain websites subs domain siteid now).httpStatus = 200 ∧
    (verifyCustomDomain websites subs domain siteid now).websites.find?
        (fun x => x.id == siteid) =
      some { w with isCustomDomainVerified := true,
                    domainVerifiedAt := some now } := by
  constructor
  · simp [verifyCustomDomain, hid, hfind, hdom, hgate, verifyDNSRecord]
  · simp [verifyCustomDomain, hid, hfind, hdom, hgate, verifyDNSRecord]
    have h := find?_updateFirst (fun x : Website => x.id == siteid)
      (fun w : Website => { w with isCustomDomainVerified := true,
                                   domainVerifiedAt := some now })
      (fun x => rfl) websites
    rw [h, hfind]
    simp [hdom]

/-- C10 witness: concrete run on `siteA` with its active subscription. -/
theorem verifyCustomDomain_always_verifies_witness :
    (verifyCustomDomain [siteA] [subSite] "example.com" objectIdA 7).httpStatus = 200 ∧
    (verifyCustomDomain [siteA] [subSite] "example.com" objectIdA 7).websites.find?
        (fun x => x.id == objectIdA) =
      some { siteA with isCustomDomainVerified := true,
                        domainVerifiedAt := some 7 } :=
  verifyCustomDomain_always_verifies [siteA] [subSite] "example.com" objectIdA 7
    siteA (by decide) (by decide) (by decide) (by decide)

/-! ## C2: cancel at period end -/

/-- C2 counterexample: the claim says a non-immediate cancel leaves
`status` unchanged. Canceling the trialing subscription `subTrialing` with
a provider response reporting status active overwrites the local status
with 'active' (the code sets
`status = updatedStripeSubscription.status || 'active'`). -/
theorem cancelAtPeriodEnd_changes_status :
    subTrialing.status = SubStatus.trialing ∧
    (cancelSubscription [subTrialing] "sub_2" none false
        (Except.ok ⟨some SubStatus.active, none⟩) 100).httpStatus = 200 ∧
    (cancelSubscription [subTrialing] "sub_2" none false
        (Except.ok ⟨some SubStatus.active, none⟩) 100).subs.map
        Subscription.status = [SubStatus.active] := by
  decide

/-- C2 (amended): a non-immediate cancel on an existing, not-already-
canceled subscription whose provider update succeeds sets
`cancelAtPeriodEnd = true` and `canceledAt = now`, overwrites `status` with
the provider-reported status (defaulting to 'active' when the provider
reports none), and leaves every other field — in particular
`currentPeriodEnd` — unchanged. -/
theorem cancelAtPeriodEnd_effect (store : List Subscription) (sid : String)
    (uid : Option String) (stripeSub : StripeSubResponse) (now : Nat)
    (sub : Subscription)
    (hsid : (sid == "") = false)
    (hfind : store.find? (fun s => s.subscriptionId == sid) = some sub)
    (hown : (match uid with
             | some u => sub.userId != u
             | none => false) = false)
    (hnc : (sub.status == SubStatus.canceled) = false) :
    (cancelSubscription store sid uid false (Except.ok stripeSub) now).httpStatus
      = 200 ∧
    (cancelSubscription store sid uid false (Except.ok stripeSub) now).subs.find?
        (fun s => s.subscriptionId == sid) =
      some { sub with cancelAtPeriodEnd := true,
                      canceledAt := some now,
                      status := stripeSub.status.getD .active } := by
  constructor
  · simp [cancelSubscription, hsid, hfind, hown, hnc]
  · simp [cancelSubscription, hsid, hfind, hown, hnc]
    have h := find?_updateFirst (fun s : Subscription => s.subscriptionId == sid)
      (fun s : Subscription => { s with cancelAtPeriodEnd := true,
                                        canceledAt := some now,
                                        status := stripeSub.status.getD .active })
      (fun x => rfl) store
    rw [h, hfind]
    rfl

/-- C2 witness: the amended effect on the concrete record `subActive`. -/
theorem cancelAtPeriodEnd_effect_witness :
    (cancelSubscription [subActive] "sub_1" (some "u1") false
        (Except.ok ⟨some SubStatus.active, none⟩) 100).httpStatus = 200 ∧
    (cancelSubscription [subActive] "sub_1" (some "u1") false
        (Except.ok ⟨some SubStatus.active, none⟩) 100).subs.find?
        (fun s => s.subscriptionId == "sub_1") =
      some { subActive with cancelAtPeriodEnd := true,
                            canceledAt := some 100,
                            status := (some SubStatus.active).getD .active } :=
  cancelAtPeriodEnd_effect [subActive] "sub_1" (some "u1")
    ⟨some SubStatus.active, none⟩ 100 subActive
    (by decide) (by decide) (by decide) (by decide)

/-! ## C3: the resource_missing error path -/

/-- C3 counterexample: the catch block tests
`error.type == 'StripeInvalidRequestError'` before
`error.code == 'resource_missing'`, so a resource_missing error carrying
that type (as Stripe resource_missing errors do) is answered with the
generic 400, not the distinct 404. -/
theorem resource_missing_can_get_400 :
    (cancelSubscription [subActive] "sub_1" none false
        (Except.error ⟨"StripeInvalidRequestError", "resource_missing"⟩)
        100).httpStatus = 400 := by
  decide

/-- C3 (amended): a provider error with code resource_missing is surfaced
as the distinct 404 "not found in Stripe" condition only when its type is
not 'StripeInvalidRequestError'; when the error carries that type, the 400
invalid-request branch wins regardless of the code. -/
theorem resource_missing_distinct_when_not_invalid_request
    (store : List Subscription) (sid : String) (uid : Option String)
    (imm : Bool) (e : StripeError) (now : Nat) (sub : Subscription)
    (hsid : (sid == "") = false)
    (hfind : store.find? (fun s => s.subscriptionId == sid) = some sub)
    (hown : (match uid with
             | some u => sub.userId != u
             | none => false) = false)
    (hnc : (sub.status == SubStatus.canceled) = false)
    (htype : (e.type == "StripeInvalidRequestError") = false)
    (hcode : e.code = "resource_missing") :
    cancelSubscription store sid uid imm (Except.error e) now = ⟨404, store⟩ := by
  simp [cancelSubscription, hsid, hfind, hown, hnc, htype, hcode]

/-- C3 witness: a resource_missing error whose type is the Stripe API
error class name, on the concrete store. -/
theorem resource_missing_distinct_witness :
    cancelSubscription [subActive] "sub_1" none false
        (Except.error ⟨"StripeAPIError", "resource_missing"⟩) 100 =
      ⟨404, [subActive]⟩ :=
  resource_missing_distinct_when_not_invalid_request [subActive] "sub_1" none
    false ⟨"StripeAPIError", "resource_missing"⟩ 100 subActive
    (by decide) (by decide) (by decide) (by decide) (by decide) (by decide)

/-! ## C4: the website-deletion cascade -/

/-- C4 counterexample: the claim says the cascade deletes the Subscription
records first and the Website second. On a concrete store the trace of
mutations is website-deletion first, subscription-deletion second — the
reverse order. -/
theorem deleteWebsite_order_reversed :
    (deleteWebsite ⟨[siteA], [subSite]⟩ objectIdA).trace =
      [DeleteStep.websiteDeleted objectIdA,
       DeleteStep.subscriptionsDeleted objectIdA] ∧
    (deleteWebsite ⟨[siteA], [subSite]⟩ objectIdA).trace ≠
      [DeleteStep.subscriptionsDeleted objectIdA,
       DeleteStep.websiteDeleted objectIdA] := by
  decide

/-- C4 (amended): deletion performs the cascade in the order delete the
Website record first, then delete all Subscription records for that
websiteId, so a crash between the two steps can leave orphaned
subscriptions but never an orphaned website; after a completed deletion no
Subscription record (and no Website record) for that websiteId remains. -/
theorem deleteWebsite_cascade (store : Store) (wid : String) (w : Website)
    (hid : isValidObjectId wid = true)
    (hfind : store.websites.find? (fun x => x.id == wid) = some w) :
    (deleteWebsite store wid).httpStatus = 200 ∧
    (deleteWebsite store wid).trace.head? =
      some (DeleteStep.websiteDeleted wid) ∧
    (deleteWebsite store wid).trace.getLast? =
      some (DeleteStep.subscriptionsDeleted wid) ∧
    (deleteWebsite store wid).store.websites.all (fun x => x.id != wid) = true ∧
    (deleteWebsite store wid).store.subs.all (fun s => s.websiteId != wid) = true := by
  refine ⟨?_, ?_, ?_, ?_, ?_⟩ <;>
    cases htid : w.templateId <;>
      simp [deleteWebsite, hid, hfind, htid, List.getLast?_append_cons,
            List.all_eq_true, List.mem_filter]

/-- C4 witness: the cascade on the concrete store holding `siteA` and its
subscription. -/
theorem deleteWebsite_cascade_witness :
    (deleteWebsite ⟨[siteA], [subSite]⟩ objectIdA).httpStatus = 200 ∧
    (deleteWebsite ⟨[siteA], [subSite]⟩ objectIdA).trace.head? =
      some (DeleteStep.websiteDeleted objectIdA) ∧
    (deleteWebsite ⟨[siteA], [subSite]⟩ objectIdA).trace.getLast? =
      some (DeleteStep.subscriptionsDeleted objectIdA) ∧
    (deleteWebsite ⟨[siteA], [subSite]⟩ objectIdA).store.websites.all
      (fun x => x.id != objectIdA) = true ∧
    (deleteWebsite ⟨[siteA], [subSite]⟩ objectIdA).store.subs.all
      (fun s => s.websiteId != objectIdA) = true :=
  deleteWebsite_cascade ⟨[siteA], [subSite]⟩ objectIdA siteA
    (by decide) (by decide)

/-! ## C5: past_due / unpaid normalization on ingestion -/

/-- C5 counterexample: the claim says every status-writing handler
normalizes past_due / unpaid before persisting. handleCheckoutCompleted
writes the raw provider status: ingesting a checkout completion whose
subscription reports past_due stores past_due. -/
theorem checkout_persists_past_due :
    (handleCheckoutCompleted (some "sub_pd") none providerSubPastDue
        (some "a@b.c") 0 []).map Subscription.status = [SubStatus.pastDue] := by
  decide

/-- C5 (amended): the past_due / unpaid → incomplete normalization is
performed by the invoice.payment_succeeded and
customer.subscription.updated handlers — every record they touch is stored
with a status that is neither past_due nor unpaid — but not by
checkout.session.completed, which persists the provider-reported status
unchanged. -/
theorem payment_and_update_handlers_normalize
    (invoiceSubscription : Option String) (invoiceLineStart invoiceLineEnd : Option Nat)
    (providerSub : ProviderSubscription) (customerEmail : Option String)
    (now : Nat) (store : List Subscription) :
    (handlePaymentSucceeded invoiceSubscription invoiceLineStart invoiceLineEnd
        providerSub customerEmail now store).all
      (fun s => decide (s ∈ store) ||
        (s.status != SubStatus.pastDue && s.status != SubStatus.unpaid)) = true ∧
    (handleSubscriptionUpdated providerSub now store).all
      (fun s => decide (s ∈ store) ||
        (s.status != SubStatus.pastDue && s.status != SubStatus.unpaid)) = true := by
  constructor
  · rw [List.all_eq_true]
    intro s hs
    by_cases htr : jsTruthy invoiceSubscription = true
    · simp only [handlePaymentSucceeded, htr, Bool.not_true, Bool.false_eq_true,
                 if_false] at hs
      rcases mem_upsertSub _ _ _ _ _ hs with h | ⟨x, rfl⟩
      · simp [h]
      · cases hst : providerSub.status <;> simp [normalizeStatus, hst]
    · have htr' : jsTruthy invoiceSubscription = false := by
        cases h : jsTruthy invoiceSubscription
        · rfl
        · exact absurd h htr
      simp only [handlePaymentSucceeded, htr', Bool.not_false, if_true] at hs
      simp [hs]
  · rw [List.all_eq_true]
    intro s hs
    rcases mem_updateFirst _ _ _ _ hs with h | ⟨x, hx, rfl⟩
    · simp [h]
    · cases hst : providerSub.status <;> simp [normalizeStatus, hst]

/-! ## C6: idempotence of subscription-deleted ingestion -/

/-- C6: applying the same customer.subscription.deleted payload twice (at
the same current time) yields the same store as applying it once, and any
record found for the payload's id afterwards has status canceled,
cancelAtPeriodEnd false, and canceledAt from the payload's canceled_at
(seconds scaled to milliseconds) or the current time when absent. -/
theorem handleSubscriptionDeleted_idempotent (store : List Subscription)
    (payloadId : String) (payloadCanceledAt : Option Nat) (now : Nat) :
    handleSubscriptionDeleted payloadId payloadCanceledAt now
        (handleSubscriptionDeleted payloadId payloadCanceledAt now store) =
      handleSubscriptionDeleted payloadId payloadCanceledAt now store ∧
    ((handleSubscriptionDeleted payloadId payloadCanceledAt now store).find?
        (fun s => s.subscriptionId == payloadId)).all
      (fun s => s.status == SubStatus.canceled &&
        (s.cancelAtPeriodEnd == false) &&
        (s.canceledAt == some (match payloadCanceledAt with
                               | some t => t * 1000
                               | none => now))) = true := by
  constructor
  · cases payloadCanceledAt with
    | none =>
      simp only [handleSubscriptionDeleted]
      exact updateFirst_idem (fun s => s.subscriptionId == payloadId)
        (fun s => { s with status := SubStatus.canceled, canceledAt := some now,
                           cancelAtPeriodEnd := false, updatedAt := now })
        (fun x => rfl) (fun x _ => rfl) store
    | some t =>
      simp only [handleSubscriptionDeleted]
      exact updateFirst_idem (fun s => s.subscriptionId == payloadId)
        (fun s => { s with status := SubStatus.canceled,
                           canceledAt := some (t * 1000),
                           cancelAtPeriodEnd := false, updatedAt := now })
        (fun x => rfl) (fun x _ => rfl) store
  · cases payloadCanceledAt with
    | none =>
      simp only [handleSubscriptionDeleted]
      exact all_find?_updateFirst (fun s => s.subscriptionId == payloadId)
        (fun s => { s with status := SubStatus.canceled, canceledAt := some now,
                           cancelAtPeriodEnd := false, updatedAt := now })
        (fun s => s.status == SubStatus.canceled &&
          (s.cancelAtPeriodEnd == false) && (s.canceledAt == some now))
        (fun x => rfl) (fun x => by simp) store
    | some t =>
      simp only [handleSubscriptionDeleted]
      exact all_find?_updateFirst (fun s => s.subscriptionId == payloadId)
        (fun s => { s with status := SubStatus.canceled,
                           canceledAt := some (t * 1000),
                           cancelAtPeriodEnd := false, updatedAt := now })
        (fun s => s.status == SubStatus.canceled &&
          (s.cancelAtPeriodEnd == false) && (s.canceledAt == some (t * 1000)))
        (fun x => rfl) (fun x => by simp) store

/-! ## C7: which handlers create records -/

/-- C7: the handlers for customer.subscription.updated,
customer.subscription.deleted and invoice.payment_failed never create a
record (the store's size is unchanged), and a
customer.subscription.deleted event for an id with no matching record
completes and leaves the store unchanged (record creation happens only in
the upserting checkout.session.completed / invoice.payment_succeeded
handlers). -/
theorem mutation_handlers_never_create (providerSub : ProviderSubscription)
    (payloadId : String) (payloadCanceledAt : Option Nat)
    (invoiceSubscription : Option String) (now : Nat)
    (store : List Subscription)
    (hunknown : store.all (fun s => s.subscriptionId != payloadId) = true) :
    (handleSubscriptionUpdated providerSub now store).length = store.length ∧
    (handleSubscriptionDeleted payloadId payloadCanceledAt now store).length
      = store.length ∧
    (handlePaymentFailed invoiceSubscription now store).length = store.length ∧
    handleSubscriptionDeleted payloadId payloadCanceledAt now store = store := by
  refine ⟨?_, ?_, ?_, ?_⟩
  · exact updateFirst_length _ _ store
  · exact updateFirst_length _ _ store
  · by_cases htr : jsTruthy invoiceSubscription = true
    · simp only [handlePaymentFailed, htr, Bool.not_true, Bool.false_eq_true,
                 if_false]
      exact updateFirst_length _ _ store
    · have htr' : jsTruthy invoiceSubscription = false := by
        cases h : jsTruthy invoiceSubscription
        · rfl
        · exact absurd h htr
      simp [handlePaymentFailed, htr']
  · simp only [handleSubscriptionDeleted]
    apply updateFirst_of_no_match
    intro x hx
    have := (List.all_eq_true.mp hunknown) x hx
    simpa using this

/-- C7 witness: the three handlers on a one-record store, with a deleted
event for an unknown id. -/
theorem mutation_handlers_never_create_witness :
    (handleSubscriptionUpdated providerSubPastDue 5 [subActive]).length = 1 ∧
    (handleSubscriptionDeleted "sub_missing" none 5 [subActive]).length = 1 ∧
    (handlePaymentFailed (some "sub_1") 5 [subActive]).length = 1 ∧
    handleSubscriptionDeleted "sub_missing" none 5 [subActive] = [subActive] :=
  mutation_handlers_never_create providerSubPastDue "sub_missing" none
    (some "sub_1") 5 [subActive] (by decide)

/-! ## C8: the bulk entitlement query -/

theorem keys_setKey (m : List (String × BulkEntry)) (k : String) (v : BulkEntry) :
    (setKey m k v).map Prod.fst = m.map Prod.fst :=
  map_updateFirst (fun p : String × BulkEntry => p.1 == k)
    (fun p : String × BulkEntry => (p.1, v)) Prod.fst (fun x => rfl) m

theorem keys_foldl_setKey (key : Subscription → String)
    (v : Subscription → BulkEntry) :
    ∀ (subs : List Subscription) (m : List (String × BulkEntry)),
      ((subs.foldl (fun acc sub => setKey acc (key sub) (v sub)) m).map Prod.fst)
        = m.map Prod.fst := by
  intro subs
  induction subs with
  | nil => intro m; rfl
  | cons x xs ih =>
    intro m
    rw [List.foldl_cons, ih, keys_setKey]

theorem all_setKey (q : BulkEntry → Bool) (m : List (String × BulkEntry))
    (k : String) (v : BulkEntry)
    (hm : m.all (fun p => q p.2) = true) (hv : q v = true) :
    (setKey m k v).all (fun p => q p.2) = true := by
  rw [List.all_eq_true] at hm ⊢
  intro p hp
  rcases mem_updateFirst _ _ _ _ hp with h | ⟨x, hx, rfl⟩
  · exact hm p h
  · simpa using hv

theorem all_foldl_setKey (q : BulkEntry → Bool) (key : Subscription → String)
    (v : Subscription → BulkEntry) (hv : ∀ sub, q (v sub) = true) :
    ∀ (subs : List Subscription) (m : List (String × BulkEntry)),
      m.all (fun p => q p.2) = true →
      ((subs.foldl (fun acc sub => setKey acc (key sub) (v sub)) m).all
        (fun p => q p.2)) = true := by
  intro subs
  induction subs with
  | nil => intro m hm; exact hm
  | cons x xs ih =>
    intro m hm
    rw [List.foldl_cons]
    exact ih _ (all_setKey q m (key x) (v x) hm (hv x))

/-- The per-record validity and map entry written by the bulk query's
forEach body. -/
def bulkEntryOf (now : Nat) (sub : Subscription) : BulkEntry :=
  ⟨(match sub.currentPeriodEnd with
    | some e => decide (now < e)
    | none => false),
   if (match sub.currentPeriodEnd with
       | some e => decide (now < e)
       | none => false) then some sub else none⟩

/-- C8: for distinct requested website ids the bulk query returns one
entry per requested id, in order — exactly N entries for N ids — and every
entry is either entitled with the record attached or not entitled with a
null record. (Distinctness is what makes the association-list model match
a JS object keyed by id.) -/
theorem getBulkSubscriptionStatus_total (store : List Subscription)
    (userId : String) (websiteIds : List String) (now : Nat)
    (hnd : websiteIds.Nodup) :
    (getBulkSubscriptionStatus store userId websiteIds now).map Prod.fst
      = websiteIds ∧
    (getBulkSubscriptionStatus store userId websiteIds now).length
      = websiteIds.length ∧
    (getBulkSubscriptionStatus store userId websiteIds now).all
      (fun q => (q.2.hasActive && q.2.subscription.isSome) ||
                (!q.2.hasActive && q.2.subscription == none)) = true := by
  have hmaps : ∀ l : List String,
      ((l.map (fun id => (id, BulkEntry.mk false none))).map Prod.fst) = l := by
    intro l
    induction l with
    | nil => rfl
    | cons a as ih => simp [ih]
  have hkeys : (getBulkSubscriptionStatus store userId websiteIds now).map Prod.fst
      = websiteIds := by
    have h := keys_foldl_setKey (fun sub => sub.websiteId) (bulkEntryOf now)
      (store.filter (fun s => s.userId == userId &&
        websiteIds.contains s.websiteId && s.status == .active))
      (websiteIds.map (fun id => (id, BulkEntry.mk false none)))
    calc (getBulkSubscriptionStatus store userId websiteIds now).map Prod.fst
        = (websiteIds.map (fun id => (id, BulkEntry.mk false none))).map Prod.fst :=
          h
      _ = websiteIds := hmaps websiteIds
  refine ⟨hkeys, ?_, ?_⟩
  · have := congrArg List.length hkeys
    simpa using this
  · exact all_foldl_setKey
      (fun e => (e.hasActive && e.subscription.isSome) ||
                (!e.hasActive && e.subscription == none))
      (fun sub => sub.websiteId) (bulkEntryOf now)
      (fun sub => by
        unfold bulkEntryOf
        cases sub.currentPeriodEnd with
        | none => rfl
        | some e => by_cases h : now < e <;> simp [h])
      _ _ (by
        rw [List.all_eq_true]
        intro p hp
        rcases List.mem_map.mp hp with ⟨id, _, rfl⟩
        rfl)

/-- C8 witness: two distinct requested ids, one carrying an in-period
active subscription. -/
theorem getBulkSubscriptionStatus_total_witness :
    (getBulkSubscriptionStatus [subActive] "u1" ["w1", "w2"] 10).map Prod.fst
      = ["w1", "w2"] ∧
    (getBulkSubscriptionStatus [subActive] "u1" ["w1", "w2"] 10).length = 2 ∧
    (getBulkSubscriptionStatus [subActive] "u1" ["w1", "w2"] 10).all
      (fun q => (q.2.hasActive && q.2.subscription.isSome) ||
                (!q.2.hasActive && q.2.subscription == none)) = true :=
  getBulkSubscriptionStatus_total [subActive] "u1" ["w1", "w2"] 10 (by decide)

/-! ## C9: the webhook endpoint's status contract -/

/-- C9: the webhook endpoint answers 400 exactly when signature
verification fails; a verified event whose handling completes — including
unknown event types, which only hit the logging default branch — is
answered 200 with received true and the event type; a verified event whose
handler throws is answered 500. -/
theorem handleWebhook_response_contract
    (constructEventResult : Except String StripeEvent)
    (handlerOutcome : String → Except String Unit) :
    ((handleWebhook constructEventResult handlerOutcome).httpStatus = 400 ↔
      ∃ msg, constructEventResult = Except.error msg) ∧
    (∀ ev, constructEventResult = Except.ok ev →
      (ev.type ∉ knownEventTypes ∨ handlerOutcome ev.type = Except.ok ()) →
      handleWebhook constructEventResult handlerOutcome =
        ⟨200, some true, some ev.type⟩) ∧
    (∀ ev msg, constructEventResult = Except.ok ev →
      ev.type ∈ knownEventTypes →
      handlerOutcome ev.type = Except.error msg →
      handleWebhook constructEventResult handlerOutcome = ⟨500, none, none⟩) := by
  refine ⟨?_, ?_, ?_⟩
  · cases constructEventResult with
    | error msg => simp [handleWebhook]
    | ok ev =>
      by_cases hk : ev.type ∈ knownEventTypes
      · cases hh : handlerOutcome ev.type <;> simp [handleWebhook, hk, hh]
      · simp [handleWebhook, hk]
  · intro ev hev hok
    subst hev
    rcases hok with hk | hok
    · simp [handleWebhook, hk]
    · by_cases hk : ev.type ∈ knownEventTypes
      · simp [handleWebhook, hk, hok]
      · simp [handleWebhook, hk]
  · intro ev msg hev hk hh
    subst hev
    simp [handleWebhook, hk, hh]

/-- C9 witness: a failed verification, a verified unknown event type, and
a verified known event whose handler throws. -/
theorem handleWebhook_response_contract_witness :
    (handleWebhook (Except.error "bad signature")
        (fun _ => Except.ok ())).httpStatus = 400 ∧
    handleWebhook (Except.ok ⟨"charge.refunded"⟩) (fun _ => Except.ok ()) =
      ⟨200, some true, some "charge.refunded"⟩ ∧
    handleWebhook (Except.ok ⟨"invoice.payment_failed"⟩)
        (fun _ => Except.error "db down") = ⟨500, none, none⟩ :=
  ⟨((handleWebhook_response_contract (Except.error "bad signature")
      (fun _ => Except.ok ())).1).mpr ⟨"bad signature", rfl⟩,
   (handleWebhook_response_contract (Except.ok ⟨"charge.refunded"⟩)
      (fun _ => Except.ok ())).2.1 ⟨"charge.refunded"⟩ rfl
     (Or.inl (by decide)),
   (handleWebhook_response_contract (Except.ok ⟨"invoice.payment_failed"⟩)
      (fun _ => Except.error "db down")).2.2 ⟨"invoice.payment_failed"⟩ "db down"
     rfl (by decide) rfl⟩

end WebGen
